import Mathlib

/-!
Verification of the viem client/transport layer, chain-definition tables and
the OP Stack `estimateTotalGas` action, as a shallow embedding in Lean 4.

The `estimateTotalGas` action and the `skaleCryptoColosseum` chain definition
are embedded directly from their TypeScript sources.  The client/transport
layer (`createClient`, `createTransport`, `http`, `webSocket`,
`ethereumProvider`) is modelled from the specification, with the default
field values pinned by the repository's own `createClient` test snapshots.
-/

/-- An EIP-1193 RPC request: a method name plus parameters (parameters are
abstracted to a list of strings). -/
structure RpcRequest where
  method : String
  params : List String
deriving DecidableEq, Repr

/-- An RPC response, abstracted to an optional string payload. -/
def RpcResponse : Type := Option String

/-- The uniform EIP-1193 request entry point shape
(TypeScript `Requests[request]`): method plus parameters to response. -/
def RequestFn : Type := RpcRequest → RpcResponse

/-- The shape of a WebSocket subscription entry point (abstracted). -/
def SubscribeFn : Type := RpcRequest → List RpcResponse

/-- The shape of the WebSocket `getSocket` entry point (abstracted socket
handle). -/
def GetSocketFn : Type := Unit → Nat

/-- Modelled from the spec: a transport value, "an abstraction that turns an
RPC method name + parameters into a response".  Optional members model the
presence or absence of a record member in the TypeScript transport object:
`none` means the member is absent; for `url`, `some none` means the member is
present with value `undefined`.  Member sets are pinned by the repository's
createClient test snapshots (the transports source is not in the sources
provided). -/
structure Transport where
  key : String
  name : String
  request : RequestFn
  type : String
  url : Option (Option String)
  subscribe : Option SubscribeFn
  getSocket : Option GetSocketFn

/-- Configuration accepted by `createTransport` (mock transports in the tests
pass exactly these four fields). -/
structure TransportConfig where
  key : String
  name : String
  request : RequestFn
  type : String

/-- Modelled from the spec: `createTransport` packages a key, name, request
function and type into a transport value, with no url, subscribe or getSocket
members. -/
def createTransport (config : TransportConfig) : Transport :=
  { key := config.key
    name := config.name
    request := config.request
    type := config.type
    url := none
    subscribe := none
    getSocket := none }

/-- Modelled from the spec: the `http` transport, "implemented over HTTP
request/response".  The HTTP machinery is abstracted as a function
`fetchJson` from the configured url to a request function.  Per the test
snapshot, the transport record carries key "http", name "HTTP JSON-RPC",
type "http" and a `url` member holding the configured url (possibly
`undefined`), and no subscribe or getSocket members. -/
def http (fetchJson : Option String → RequestFn) (url : Option String) :
    Unit → Transport :=
  fun _ =>
    { key := "http"
      name := "HTTP JSON-RPC"
      request := fetchJson url
      type := "http"
      url := some url
      subscribe := none
      getSocket := none }

/-- Configuration for the `webSocket` transport: the url and the underlying
socket machinery (abstracted). -/
structure WebSocketConfig where
  url : String
  socketRequest : RequestFn
  socketSubscribe : SubscribeFn
  socket : GetSocketFn

/-- Modelled from the spec: the `webSocket` transport, "implemented over a
persistent WebSocket connection", with "subscription semantics".  Per the
test snapshot, the transport record carries key "webSocket",
name "WebSocket JSON-RPC", type "webSocket", and `subscribe` and `getSocket`
members in addition to `request`; it has no url member. -/
def webSocket (config : WebSocketConfig) : Unit → Transport :=
  fun _ =>
    { key := "webSocket"
      name := "WebSocket JSON-RPC"
      request := config.socketRequest
      type := "webSocket"
      url := none
      subscribe := some config.socketSubscribe
      getSocket := some config.socket }

/-- An injected EIP-1193 provider: carries its own request function. -/
structure EthereumProvider where
  request : RequestFn

/-- Modelled from the spec: the `ethereumProvider` transport, "implemented
over an injected provider's own request function".  Per the test snapshot,
the transport record carries key "ethereumProvider",
name "Ethereum Provider", type "ethereumProvider" and only a `request`
entry: no url, subscribe or getSocket members. -/
def ethereumProvider (provider : EthereumProvider) : Unit → Transport :=
  fun _ =>
    { key := "ethereumProvider"
      name := "Ethereum Provider"
      request := provider.request
      type := "ethereumProvider"
      url := none
      subscribe := none
      getSocket := none }

/-- A native currency record of a chain definition. -/
structure NativeCurrency where
  name : String
  symbol : String
  decimals : Nat
deriving DecidableEq, Repr

/-- The default RPC url set of a chain definition: HTTP urls and WebSocket
urls. -/
structure RpcUrls where
  http : List String
  webSocket : List String
deriving DecidableEq, Repr

/-- A default block explorer record of a chain definition. -/
structure BlockExplorer where
  name : String
  url : String
deriving DecidableEq, Repr

/-- A chain-definition table: id, name, native currency, default RPC urls,
optional default block explorer, and a contracts record (modelled as an
association list of named addresses). -/
structure Chain where
  id : Nat
  name : String
  nativeCurrency : NativeCurrency
  rpcUrls : RpcUrls
  blockExplorers : Option BlockExplorer
  contracts : List (String × String)
deriving DecidableEq, Repr

/-- Modelled from the spec: `defineChain` (its source is not in the sources
provided) wraps a declarative chain-definition table; the table's stated
fields pass through unchanged, so it is embedded as the identity on the
chain record. -/
def defineChain (chain : Chain) : Chain := chain

/-- The `skaleCryptoColosseum` chain definition, embedded field by field from
`src/chains/definitions/skale/cryptoColosseum.ts`. -/
def skaleCryptoColosseum : Chain :=
  defineChain
    { id := 2046399126
      name := "SKALE | Crypto Colosseum"
      nativeCurrency := { name := "sFUEL", symbol := "sFUEL", decimals := 18 }
      rpcUrls :=
        { http := ["https://mainnet.skalenodes.com/v1/haunting-devoted-deneb"]
          webSocket :=
            ["wss://mainnet.skalenodes.com/v1/ws/haunting-devoted-deneb"] }
      blockExplorers :=
        some
          { name := "SKALE Explorer"
            url :=
              "https://haunting-devoted-deneb.explorer.mainnet.skalenodes.com" }
      contracts := [] }

/-- Modelled from the spec: the `uid` utility generates an identifier string
of the given length; its randomness is abstracted to a fixed alphanumeric
pattern (the tests only assert that the field is defined). -/
def uidGen (length : Nat) : String :=
  String.mk ((List.range length).map (fun i => Char.ofNat (97 + i % 26)))

/-- The client record returned by `createClient`.  The `uid` field is an
`Option` to model a possibly-undefined TypeScript member. -/
structure Client where
  chain : Option Chain
  key : String
  name : String
  pollingInterval : Nat
  request : RequestFn
  transport : Transport
  type : String
  uid : Option String

/-- Configuration accepted by `createClient`: every field except the
transport is optional.  The transport is passed as a function that
`createClient` invokes, as in the tests. -/
structure ClientConfig where
  chain : Option Chain
  key : Option String
  name : Option String
  pollingInterval : Option Nat
  transport : Unit → Transport
  type : Option String

/-- Modelled from the spec: `createClient` is "a composition of a transport,
optional chain metadata, and a polling interval, exposing a single uniform
request entry point".  It invokes the transport function, binds the
transport's request function as the client's request entry point, fills the
defaults key "base", name "Base Client", pollingInterval 4000 and
type "base" (pinned by the repository's createClient test snapshots), and
assigns a generated uid. -/
def createClient (config : ClientConfig) : Client :=
  let transport := config.transport ()
  { chain := config.chain
    key := config.key.getD "base"
    name := config.name.getD "Base Client"
    pollingInterval := config.pollingInterval.getD 4000
    request := transport.request
    transport := transport
    type := config.type.getD "base"
    uid := some (uidGen 11) }

/-- The configuration that supplies only a transport, leaving every other
field unset. -/
def baseConfig (transport : Unit → Transport) : ClientConfig :=
  { chain := none
    key := none
    name := none
    pollingInterval := none
    transport := transport
    type := none }

/-- The three actions that `estimateTotalGas` delegates to.  Their sources
are imported from other modules and are not in the sources provided, so
`estimateTotalGas` is embedded parametrically over them: `C` is the client
type, `P` the parameter record type, `R` the prepared-request type and `E`
the error type.  Each returns `Except`: TypeScript promise rejection is
`Except.error`.  Gas estimates are `Int`, the exact-integer embedding of
TypeScript `bigint`. -/
structure OpStackActions (C P R E : Type) where
  prepareTransactionRequest : C → P → Except E R
  estimateL1Gas : C → R → Except E Int
  estimateGas : C → R → Except E Int

/-- `estimateTotalGas`, embedded from
`src/chains/opStack/actions/estimateTotalGas.ts`: it awaits
`prepareTransactionRequest(client, args)`, runs `estimateL1Gas` and
`estimateGas` jointly (`Promise.all`) on the one prepared request, and
returns `l1Gas + l2Gas`.  Both estimates are evaluated when the prepared
request is available; a rejection of either rejects the whole call. -/
def estimateTotalGas {C P R E : Type} (A : OpStackActions C P R E)
    (client : C) (args : P) : Except E Int :=
  match A.prepareTransactionRequest client args with
  | Except.error e => Except.error e
  | Except.ok request =>
    match A.estimateL1Gas client request, A.estimateGas client request with
    | Except.ok l1Gas, Except.ok l2Gas => Except.ok (l1Gas + l2Gas)
    | Except.error e, _ => Except.error e
    | _, Except.error e => Except.error e

/-- One event of the instrumented `estimateTotalGas`: an invocation of one
of the three delegated actions, recording the argument it was given. -/
inductive GasCall (P R : Type) where
  | prepareCall : P → GasCall P R
  | l1Call : R → GasCall P R
  | l2Call : R → GasCall P R
deriving DecidableEq, Repr

/-- Whether an event is an invocation of `prepareTransactionRequest`. -/
def GasCall.isPrepareCall {P R : Type} : GasCall P R → Bool
  | GasCall.prepareCall _ => true
  | _ => false

/-- `estimateTotalGas` instrumented with the list of delegated-action
invocations it performs, in order.  The result component agrees with
`estimateTotalGas`; the control flow is the same as in the source:
`prepareTransactionRequest` once, then (only when it succeeds) the two
estimates jointly via `Promise.all`, both invoked on the one prepared
request. -/
def estimateTotalGasTrace {C P R E : Type} (A : OpStackActions C P R E)
    (client : C) (args : P) : Except E Int × List (GasCall P R) :=
  match A.prepareTransactionRequest client args with
  | Except.error e => (Except.error e, [GasCall.prepareCall args])
  | Except.ok request =>
    (match A.estimateL1Gas client request, A.estimateGas client request with
     | Except.ok l1Gas, Except.ok l2Gas => Except.ok (l1Gas + l2Gas)
     | Except.error e, _ => Except.error e
     | _, Except.error e => Except.error e,
     [GasCall.prepareCall args, GasCall.l1Call request,
      GasCall.l2Call request])

/-- The delegated actions instrumented with RPC-call counts.  Modelled from
the spec: each delegated action "validates/transforms parameters, issues
one or two RPC calls, and reshapes the response", so each returns its
result paired with the number of RPC calls it issued through the client's
transport. -/
structure OpStackActionsRpc (C P R E : Type) where
  prepareTransactionRequest : C → P → Except E R × Nat
  estimateL1Gas : C → R → Except E Int × Nat
  estimateGas : C → R → Except E Int × Nat

/-- `estimateTotalGas` over RPC-counting delegated actions: the RPC calls
an invocation issues are exactly those of the delegated actions it runs
(`estimateTotalGas` itself issues none directly). -/
def estimateTotalGasRpc {C P R E : Type} (A : OpStackActionsRpc C P R E)
    (client : C) (args : P) : Except E Int × Nat :=
  match A.prepareTransactionRequest client args with
  | (Except.error e, np) => (Except.error e, np)
  | (Except.ok request, np) =>
    match A.estimateL1Gas client request, A.estimateGas client request with
    | (Except.ok l1Gas, n1), (Except.ok l2Gas, n2) =>
      (Except.ok (l1Gas + l2Gas), np + n1 + n2)
    | (Except.error e, n1), (_, n2) => (Except.error e, np + n1 + n2)
    | (_, n1), (Except.error e, n2) => (Except.error e, np + n1 + n2)

/-- A concrete instantiation of the delegated actions, used to evaluate the
theorems on explicit inputs: preparing adds a field (modelled as adding one),
the L1 estimate is twice the request, the L2 estimate three times. -/
def exActions : OpStackActions Nat Nat Nat String :=
  { prepareTransactionRequest := fun _ args => Except.ok (args + 1)
    estimateL1Gas := fun _ request => Except.ok (Int.ofNat (2 * request))
    estimateGas := fun _ request => Except.ok (Int.ofNat (3 * request)) }

/-- A concrete instantiation whose `prepareTransactionRequest` rejects. -/
def exActionsPrepFail : OpStackActions Nat Nat Nat String :=
  { prepareTransactionRequest := fun _ _ => Except.error "prep"
    estimateL1Gas := fun _ request => Except.ok (Int.ofNat request)
    estimateGas := fun _ request => Except.ok (Int.ofNat request) }

/-- A concrete RPC-counting instantiation in which every delegated action
issues exactly one RPC call. -/
def exActionsRpc : OpStackActionsRpc Nat Nat Nat String :=
  { prepareTransactionRequest := fun _ args => (Except.ok (args + 1), 1)
    estimateL1Gas := fun _ request => (Except.ok (Int.ofNat request), 1)
    estimateGas := fun _ request => (Except.ok (Int.ofNat request), 1) }

/-- C3: for every transport, `createClient` with no other configuration
returns a client with key "base", name "Base Client", type "base",
pollingInterval 4000, no chain, the bound transport object and the
transport's request function; a supplied chain appears unchanged on the
returned client. -/
theorem createClient_defaults (t : Unit → Transport) (ch : Chain) :
    (createClient (baseConfig t)).key = "base" ∧
    (createClient (baseConfig t)).name = "Base Client" ∧
    (createClient (baseConfig t)).type = "base" ∧
    (createClient (baseConfig t)).pollingInterval = 4000 ∧
    (createClient (baseConfig t)).chain = none ∧
    (createClient (baseConfig t)).transport = t () ∧
    (createClient (baseConfig t)).request = (t ()).request ∧
    (createClient { baseConfig t with chain := some ch }).chain = some ch :=
  ⟨rfl, rfl, rfl, rfl, rfl, rfl, rfl, rfl⟩

/-- C4: overriding exactly one configurable field (key, name,
pollingInterval or type) changes only that field of the returned client;
every other field among key, name, pollingInterval, type, chain, transport
and request keeps its default value. -/
theorem createClient_single_override_frame (t : Unit → Transport)
    (k n ty : String) (p : Nat) :
    ((createClient { baseConfig t with key := some k }).key = k ∧
     (createClient { baseConfig t with key := some k }).name =
       (createClient (baseConfig t)).name ∧
     (createClient { baseConfig t with key := some k }).pollingInterval =
       (createClient (baseConfig t)).pollingInterval ∧
     (createClient { baseConfig t with key := some k }).type =
       (createClient (baseConfig t)).type ∧
     (createClient { baseConfig t with key := some k }).chain =
       (createClient (baseConfig t)).chain ∧
     (createClient { baseConfig t with key := some k }).transport =
       (createClient (baseConfig t)).transport ∧
     (createClient { baseConfig t with key := some k }).request =
       (createClient (baseConfig t)).request) ∧
    ((createClient { baseConfig t with name := some n }).name = n ∧
     (createClient { baseConfig t with name := some n }).key =
       (createClient (baseConfig t)).key ∧
     (createClient { baseConfig t with name := some n }).pollingInterval =
       (createClient (baseConfig t)).pollingInterval ∧
     (createClient { baseConfig t with name := some n }).type =
       (createClient (baseConfig t)).type ∧
     (createClient { baseConfig t with name := some n }).chain =
       (createClient (baseConfig t)).chain ∧
     (createClient { baseConfig t with name := some n }).transport =
       (createClient (baseConfig t)).transport ∧
     (createClient { baseConfig t with name := some n }).request =
       (createClient (baseConfig t)).request) ∧
    ((createClient
        { baseConfig t with pollingInterval := some p }).pollingInterval =
       p ∧
     (createClient { baseConfig t with pollingInterval := some p }).key =
       (createClient (baseConfig t)).key ∧
     (createClient { baseConfig t with pollingInterval := some p }).name =
       (createClient (baseConfig t)).name ∧
     (createClient { baseConfig t with pollingInterval := some p }).type =
       (createClient (baseConfig t)).type ∧
     (createClient { baseConfig t with pollingInterval := some p }).chain =
       (createClient (baseConfig t)).chain ∧
     (createClient
        { baseConfig t with pollingInterval := some p }).transport =
       (createClient (baseConfig t)).transport ∧
     (createClient { baseConfig t with pollingInterval := some p }).request =
       (createClient (baseConfig t)).request) ∧
    ((createClient { baseConfig t with type := some ty }).type = ty ∧
     (createClient { baseConfig t with type := some ty }).key =
       (createClient (baseConfig t)).key ∧
     (createClient { baseConfig t with type := some ty }).name =
       (createClient (baseConfig t)).name ∧
     (createClient { baseConfig t with type := some ty }).pollingInterval =
       (createClient (baseConfig t)).pollingInterval ∧
     (createClient { baseConfig t with type := some ty }).chain =
       (createClient (baseConfig t)).chain ∧
     (createClient { baseConfig t with type := some ty }).transport =
       (createClient (baseConfig t)).transport ∧
     (createClient { baseConfig t with type := some ty }).request =
       (createClient (baseConfig t)).request) :=
  ⟨⟨rfl, rfl, rfl, rfl, rfl, rfl, rfl⟩,
   ⟨rfl, rfl, rfl, rfl, rfl, rfl, rfl⟩,
   ⟨rfl, rfl, rfl, rfl, rfl, rfl, rfl⟩,
   ⟨rfl, rfl, rfl, rfl, rfl, rfl, rfl⟩⟩

/-- C5: for every supported transport kind (HTTP, WebSocket, injected
Ethereum provider, or a mock built with `createTransport`), the client
returned by `createClient` exposes the uniform request entry point: its
`request` field is of the `RequestFn` shape and is the bound transport's
request function (the underlying fetch, socket, provider or mock request
respectively). -/
theorem createClient_request_uniform (fetchJson : Option String → RequestFn)
    (u : Option String) (ws : WebSocketConfig) (provider : EthereumProvider)
    (mock : TransportConfig) :
    (createClient (baseConfig (http fetchJson u))).request = fetchJson u ∧
    (createClient (baseConfig (webSocket ws))).request = ws.socketRequest ∧
    (createClient (baseConfig (ethereumProvider provider))).request =
      provider.request ∧
    (createClient
        (baseConfig (fun _ => createTransport mock))).request =
      mock.request :=
  ⟨rfl, rfl, rfl, rfl⟩

/-- C6: the webSocket transport object carries subscribe and getSocket
members in addition to request, while the http transport carries only key,
name, type, a url member, and request (no subscribe or getSocket), and the
ethereumProvider transport carries only key, name, type and request (no
url, subscribe or getSocket). -/
theorem transport_member_shapes (fetchJson : Option String → RequestFn)
    (u : Option String) (ws : WebSocketConfig)
    (provider : EthereumProvider) :
    (webSocket ws ()).subscribe.isSome = true ∧
    (webSocket ws ()).getSocket.isSome = true ∧
    (http fetchJson u ()).subscribe = none ∧
    (http fetchJson u ()).getSocket = none ∧
    (http fetchJson u ()).url = some u ∧
    (http fetchJson u ()).key = "http" ∧
    (http fetchJson u ()).name = "HTTP JSON-RPC" ∧
    (http fetchJson u ()).type = "http" ∧
    (ethereumProvider provider ()).subscribe = none ∧
    (ethereumProvider provider ()).getSocket = none ∧
    (ethereumProvider provider ()).url = none ∧
    (ethereumProvider provider ()).key = "ethereumProvider" ∧
    (ethereumProvider provider ()).name = "Ethereum Provider" ∧
    (ethereumProvider provider ()).type = "ethereumProvider" :=
  ⟨rfl, rfl, rfl, rfl, rfl, rfl, rfl, rfl, rfl, rfl, rfl, rfl, rfl, rfl⟩

/-- C10: for every configuration (any transport, any combination of
overridden fields), the client returned by `createClient` carries a defined
uid: the uid member is never undefined. -/
theorem createClient_uid_defined (config : ClientConfig) :
    (createClient config).uid.isSome = true :=
  rfl

/-- C7: the chain-definition table `skaleCryptoColosseum` is the fixed
record with id 2046399126, name "SKALE | Crypto Colosseum", native currency
sFUEL with symbol "sFUEL" and 18 decimals, the stated default HTTP and
WebSocket RPC urls, the stated default block explorer, and an empty
contracts record. -/
theorem skaleCryptoColosseum_fields :
    skaleCryptoColosseum.id = 2046399126 ∧
    skaleCryptoColosseum.name = "SKALE | Crypto Colosseum" ∧
    skaleCryptoColosseum.nativeCurrency =
      { name := "sFUEL", symbol := "sFUEL", decimals := 18 } ∧
    skaleCryptoColosseum.rpcUrls.http =
      ["https://mainnet.skalenodes.com/v1/haunting-devoted-deneb"] ∧
    skaleCryptoColosseum.rpcUrls.webSocket =
      ["wss://mainnet.skalenodes.com/v1/ws/haunting-devoted-deneb"] ∧
    skaleCryptoColosseum.blockExplorers =
      some
        { name := "SKALE Explorer"
          url :=
            "https://haunting-devoted-deneb.explorer.mainnet.skalenodes.com" } ∧
    skaleCryptoColosseum.contracts = [] :=
  ⟨rfl, rfl, rfl, rfl, rfl, rfl, rfl⟩

/-- C1: whenever `prepareTransactionRequest` accepts the arguments and both
estimates succeed on the prepared request, `estimateTotalGas` returns
exactly the sum of the L1 data-gas estimate and the L2 gas estimate, both
taken over that single prepared request. -/
theorem estimateTotalGas_eq_sum {C P R E : Type} (A : OpStackActions C P R E)
    (client : C) (args : P) (request : R) (l1Gas l2Gas : Int)
    (hprep : A.prepareTransactionRequest client args = Except.ok request)
    (h1 : A.estimateL1Gas client request = Except.ok l1Gas)
    (h2 : A.estimateGas client request = Except.ok l2Gas) :
    estimateTotalGas A client args = Except.ok (l1Gas + l2Gas) := by
  simp [estimateTotalGas, hprep, h1, h2]

/-- Witness for C1: on the concrete delegated actions, arguments 4 prepare
to request 5, the estimates are 10 and 15, and the total is 25. -/
theorem estimateTotalGas_eq_sum_witness :
    estimateTotalGas exActions 0 4 = Except.ok 25 :=
  estimateTotalGas_eq_sum exActions 0 4 5 10 15 rfl rfl rfl

/-- C9: `estimateTotalGas` returns a value if and only if all three
delegated steps succeed, and when it fails its error is the error of a
failing delegated step (the prepare step, or one of the two estimates run
on the prepared request). -/
theorem estimateTotalGas_error_cases {C P R E : Type}
    (A : OpStackActions C P R E) (client : C) (args : P) :
    ((∃ total, estimateTotalGas A client args = Except.ok total) ↔
      ∃ request l1Gas l2Gas,
        A.prepareTransactionRequest client args = Except.ok request ∧
        A.estimateL1Gas client request = Except.ok l1Gas ∧
        A.estimateGas client request = Except.ok l2Gas) ∧
    (∀ e, estimateTotalGas A client args = Except.error e →
      A.prepareTransactionRequest client args = Except.error e ∨
      ∃ request,
        A.prepareTransactionRequest client args = Except.ok request ∧
        (A.estimateL1Gas client request = Except.error e ∨
         A.estimateGas client request = Except.error e)) := by
  cases hp : A.prepareTransactionRequest client args with
  | error e =>
    refine ⟨⟨?_, ?_⟩, ?_⟩
    · rintro ⟨total, htotal⟩
      simp [estimateTotalGas, hp] at htotal
    · rintro ⟨request, l1Gas, l2Gas, hreq, -⟩
      exact absurd hreq (by simp)
    · intro e2 he
      simp only [estimateTotalGas, hp] at he
      injection he with he2
      subst he2
      exact Or.inl rfl
  | ok request =>
    cases h1 : A.estimateL1Gas client request with
    | error e1 =>
      cases h2 : A.estimateGas client request with
      | error e2 =>
        refine ⟨⟨?_, ?_⟩, ?_⟩
        · rintro ⟨total, htotal⟩
          simp [estimateTotalGas, hp, h1, h2] at htotal
        · rintro ⟨request2, l1Gas, l2Gas, hreq, hl1, -⟩
          injection hreq with hreq2
          subst hreq2
          simp [h1] at hl1
        · intro e3 he
          simp only [estimateTotalGas, hp, h1, h2] at he
          injection he with he2
          subst he2
          exact Or.inr ⟨request, rfl, Or.inl h1⟩
      | ok l2Gas =>
        refine ⟨⟨?_, ?_⟩, ?_⟩
        · rintro ⟨total, htotal⟩
          simp [estimateTotalGas, hp, h1, h2] at htotal
        · rintro ⟨request2, l1Gas, l2Gas2, hreq, hl1, -⟩
          injection hreq with hreq2
          subst hreq2
          simp [h1] at hl1
        · intro e3 he
          simp only [estimateTotalGas, hp, h1, h2] at he
          injection he with he2
          subst he2
          exact Or.inr ⟨request, rfl, Or.inl h1⟩
    | ok l1Gas =>
      cases h2 : A.estimateGas client request with
      | error e2 =>
        refine ⟨⟨?_, ?_⟩, ?_⟩
        · rintro ⟨total, htotal⟩
          simp [estimateTotalGas, hp, h1, h2] at htotal
        · rintro ⟨request2, l1Gas2, l2Gas, hreq, -, hl2⟩
          injection hreq with hreq2
          subst hreq2
          simp [h2] at hl2
        · intro e3 he
          simp only [estimateTotalGas, hp, h1, h2] at he
          injection he with he2
          subst he2
          exact Or.inr ⟨request, rfl, Or.inr h2⟩
      | ok l2Gas =>
        refine ⟨⟨?_, ?_⟩, ?_⟩
        · intro _
          exact ⟨request, l1Gas, l2Gas, rfl, h1, h2⟩
        · intro _
          exact ⟨l1Gas + l2Gas, by simp [estimateTotalGas, hp, h1, h2]⟩
        · intro e3 he
          simp [estimateTotalGas, hp, h1, h2] at he

/-- Witness for C9: on the concrete actions whose prepare step rejects with
"prep", the error propagation clause applies: estimateTotalGas fails with
that same error, traced back to the prepare step. -/
theorem estimateTotalGas_error_cases_witness :
    exActionsPrepFail.prepareTransactionRequest 0 4 = Except.error "prep" ∨
    ∃ request,
      exActionsPrepFail.prepareTransactionRequest 0 4 =
        Except.ok request ∧
      (exActionsPrepFail.estimateL1Gas 0 request = Except.error "prep" ∨
       exActionsPrepFail.estimateGas 0 request = Except.error "prep") :=
  (estimateTotalGas_error_cases exActionsPrepFail 0 4).2 "prep" rfl

/-- C8: in every invocation, `estimateTotalGas` invokes
`prepareTransactionRequest` exactly once, every request handed to
`estimateL1Gas` equals every request handed to `estimateGas` (they share
the single prepared request), the instrumented run computes the same
result as `estimateTotalGas`, and on success the result is the exact
integer sum `l1Gas + l2Gas` over ℤ (the embedding of bigint), with no
overflow or rounding. -/
theorem estimateTotalGas_single_prepare_shared_request {C P R E : Type}
    (A : OpStackActions C P R E) (client : C) (args : P) :
    (estimateTotalGasTrace A client args).2.countP
        GasCall.isPrepareCall = 1 ∧
    (∀ r1 r2,
      GasCall.l1Call r1 ∈ (estimateTotalGasTrace A client args).2 →
      GasCall.l2Call r2 ∈ (estimateTotalGasTrace A client args).2 →
      r1 = r2) ∧
    (estimateTotalGasTrace A client args).1 =
      estimateTotalGas A client args ∧
    (∀ request l1Gas l2Gas,
      A.prepareTransactionRequest client args = Except.ok request →
      A.estimateL1Gas client request = Except.ok l1Gas →
      A.estimateGas client request = Except.ok l2Gas →
      (estimateTotalGasTrace A client args).1 =
        Except.ok (l1Gas + l2Gas)) := by
  cases hp : A.prepareTransactionRequest client args with
  | error e =>
    refine ⟨?_, ?_, ?_, ?_⟩
    · simp [estimateTotalGasTrace, hp, List.countP, List.countP.go,
        GasCall.isPrepareCall]
    · intro r1 r2 hm1 hm2
      simp [estimateTotalGasTrace, hp] at hm1
    · simp [estimateTotalGasTrace, estimateTotalGas, hp]
    · intro request l1Gas l2Gas hreq
      exact absurd hreq (by simp)
  | ok request =>
    refine ⟨?_, ?_, ?_, ?_⟩
    · simp [estimateTotalGasTrace, hp, List.countP, List.countP.go,
        GasCall.isPrepareCall]
    · intro r1 r2 hm1 hm2
      simp [estimateTotalGasTrace, hp] at hm1 hm2
      rw [hm1, hm2]
    · simp [estimateTotalGasTrace, estimateTotalGas, hp]
    · intro request2 l1Gas l2Gas hreq h1 h2
      injection hreq with hreq2
      subst hreq2
      simp [estimateTotalGasTrace, hp, h1, h2]

/-- Witness for C8: on the concrete delegated actions, the instrumented run
on arguments 4 returns the exact sum 25 of the two estimates 10 and 15. -/
theorem estimateTotalGas_single_prepare_shared_request_witness :
    (estimateTotalGasTrace exActions 0 4).1 = Except.ok 25 :=
  (estimateTotalGas_single_prepare_shared_request exActions 0 4).2.2.2
    5 10 15 rfl rfl rfl

/-- C2 fails on estimateTotalGas: with delegated actions that each issue
exactly one RPC call (the fewest the spec allows), one invocation of
estimateTotalGas issues three RPC calls, strictly more than two. -/
theorem estimateTotalGas_three_rpc_calls :
    (estimateTotalGasRpc exActionsRpc 0 4).2 = 3 ∧
    2 < (estimateTotalGasRpc exActionsRpc 0 4).2 := by
  refine ⟨rfl, ?_⟩
  decide

/-- C2 amended: an invocation of estimateTotalGas whose prepare step
succeeds issues exactly the RPC calls of its three delegated steps; when
each delegated step issues one or two RPC calls, the total is between
three and six, never at most two. -/
theorem estimateTotalGasRpc_call_count {C P R E : Type}
    (A : OpStackActionsRpc C P R E) (client : C) (args : P) (request : R)
    (hprep :
      (A.prepareTransactionRequest client args).1 = Except.ok request)
    (hp1 : 1 ≤ (A.prepareTransactionRequest client args).2)
    (hp2 : (A.prepareTransactionRequest client args).2 ≤ 2)
    (h11 : 1 ≤ (A.estimateL1Gas client request).2)
    (h12 : (A.estimateL1Gas client request).2 ≤ 2)
    (h21 : 1 ≤ (A.estimateGas client request).2)
    (h22 : (A.estimateGas client request).2 ≤ 2) :
    (estimateTotalGasRpc A client args).2 =
      (A.prepareTransactionRequest client args).2 +
        (A.estimateL1Gas client request).2 +
        (A.estimateGas client request).2 ∧
    3 ≤ (estimateTotalGasRpc A client args).2 ∧
    (estimateTotalGasRpc A client args).2 ≤ 6 := by
  rcases hA : A.prepareTransactionRequest client args with ⟨rp, np⟩
  rw [hA] at hprep hp1 hp2
  simp only at hprep
  subst hprep
  rcases h1A : A.estimateL1Gas client request with ⟨r1, n1⟩
  rw [h1A] at h11 h12
  rcases h2A : A.estimateGas client request with ⟨r2, n2⟩
  rw [h2A] at h21 h22
  simp only at hp1 hp2 h11 h12 h21 h22
  have hcount : (estimateTotalGasRpc A client args).2 = np + n1 + n2 := by
    cases r1 <;> cases r2 <;>
      simp [estimateTotalGasRpc, hA, h1A, h2A]
  refine ⟨?_, ?_, ?_⟩
  · rw [hcount]
  · rw [hcount]; omega
  · rw [hcount]; omega

/-- Witness for C2's amended claim: on the concrete RPC-counting actions
(each delegated step issuing one RPC call), the total for arguments 4 is
the sum of the three step counts and lies between three and six. -/
theorem estimateTotalGasRpc_call_count_witness :
    (estimateTotalGasRpc exActionsRpc 0 4).2 =
      (exActionsRpc.prepareTransactionRequest 0 4).2 +
        (exActionsRpc.estimateL1Gas 0 5).2 +
        (exActionsRpc.estimateGas 0 5).2 ∧
    3 ≤ (estimateTotalGasRpc exActionsRpc 0 4).2 ∧
    (estimateTotalGasRpc exActionsRpc 0 4).2 ≤ 6 :=
  estimateTotalGasRpc_call_count exActionsRpc 0 4 5 rfl (by decide)
    (by decide) (by decide) (by decide) (by decide) (by decide)
